import Mathlib

/-!
Shallow embedding of the Session-Scoped Task Orchestrator of `src/server.js`
(a session-isolated task registry driving a circular message-send loop over
an abstract remote surface, with per-session status broadcast).

JavaScript strings are modelled by Lean `String`; the JS string operations
used by the source (`split`, `trim`, `includes`, `substring`) are embedded
as executable functions on `List Char` applied to `String.data`.
JS objects used as dictionaries (`sessionTasks[sessionId][taskId]`) are
modelled as association lists with the JS property semantics: assignment
replaces the value of an existing key in place or appends a new key, and
`delete` removes the key. Wall-clock timestamps (`startTime`, `stopTime`)
and the real timers are abstracted: waits are recorded as their duration in
milliseconds, and the deferred session-deletion timers are modelled by an
explicit set of pending deletions consumed by an expiry step.
-/

namespace Server

/-! ### JS string primitives on `List Char` -/

/-- JS `String.prototype.split(sep)` for a one-character separator:
`"a;b".split(";") = ["a","b"]`, `"".split(";") = [""]`. -/
def splitOnChar (sep : Char) : List Char → List (List Char)
  | [] => [[]]
  | c :: cs =>
    if c = sep then [] :: splitOnChar sep cs
    else
      match splitOnChar sep cs with
      | [] => [[c]]
      | g :: gs => (c :: g) :: gs

/-- Whitespace recognised by JS `trim` (the forms that occur in this model). -/
def isJsWs (c : Char) : Bool :=
  c = ' ' || c = '\t' || c = '\n' || c = '\r'

/-- JS `String.prototype.trim`: strip leading and trailing whitespace. -/
def jsTrim (s : List Char) : List Char :=
  ((s.dropWhile isJsWs).reverse.dropWhile isJsWs).reverse

/-- Does `pat` occur as a leading segment of `s`? (helper for `includes`). -/
def leadSeg : List Char → List Char → Bool
  | [], _ => true
  | _ :: _, [] => false
  | p :: ps, c :: cs => p = c && leadSeg ps cs

/-- JS `String.prototype.includes(pat)`: `pat` occurs contiguously in `s`. -/
def hasSub (pat : List Char) : List Char → Bool
  | [] => leadSeg pat []
  | c :: cs => leadSeg pat (c :: cs) || hasSub pat cs

/-- `s.includes(pat)` on Lean strings. -/
def strIncludes (s pat : String) : Bool :=
  hasSub pat.data s.data

/-- JS `s.substring(0, n)`. -/
def substringTo (s : List Char) (n : Nat) : List Char :=
  s.take n

/-! ### JS objects as association lists -/

/-- `m[k]` read on a JS object used as a dictionary. -/
def mapGet (k : String) : List (String × α) → Option α
  | [] => none
  | (k', v) :: rest => if k' = k then some v else mapGet k rest

/-- `m[k] = v`: replace in place if `k` is present, else append. -/
def mapSet (k : String) (v : α) : List (String × α) → List (String × α)
  | [] => [(k, v)]
  | (k', v') :: rest => if k' = k then (k, v) :: rest else (k', v') :: mapSet k v rest

/-- `delete m[k]`: remove the key if present (no-op if absent). -/
def mapDel (k : String) : List (String × α) → List (String × α)
  | [] => []
  | (k', v') :: rest => if k' = k then rest else (k', v') :: mapDel k rest

/-- Keys of a JS object are pairwise distinct. -/
abbrev MapNodup (m : List (String × α)) : Prop :=
  (m.map Prod.fst).Nodup

/-! ### Data model -/

/-- The per-task run configuration assembled by `app.post('/start-task')`:
`{ cookie, threadId, hattersName, delay: parseInt(delay), filePath }`
(the temp-file path is consumed by `init` and abstracted away here; the
file content is passed to `init` directly). -/
structure Config where
  cookie : String
  threadId : String
  hattersName : String
  delay : Nat
deriving DecidableEq, Repr

/-- The mutable runtime state of `class MessageSender` (browser/page handles
are external driver resources and carry no registry-visible state;
`stopTime` is wall clock, modelled by the flag that it has been set). -/
structure MessageSender where
  taskId : String
  config : Config
  sessionId : String
  isRunning : Bool
  currentIndex : Nat
  totalSent : Nat
  messages : List String
  stopTimeSet : Bool
deriving DecidableEq, Repr

/-- `new MessageSender(taskId, config, sessionId)`. -/
def MessageSender.mk0 (taskId : String) (config : Config) (sessionId : String) :
    MessageSender :=
  { taskId, config, sessionId, isRunning := false, currentIndex := 0,
    totalSent := 0, messages := [], stopTimeSet := false }

/-- The status snapshot built by `MessageSender.emitStatus` (ISO timestamps
omitted: they are wall clock). -/
structure StatusEvent where
  taskId : String
  status : String
  message : String
  totalSent : Nat
  currentIndex : Nat
  totalMessages : Nat
  threadId : String
  delay : Nat
  sessionId : String
deriving DecidableEq, Repr

/-- `emitStatus(status, message)`: the event datum; delivery is modelled by
`publish`. -/
def MessageSender.statusEvent (t : MessageSender) (status message : String) :
    StatusEvent :=
  { taskId := t.taskId, status, message, totalSent := t.totalSent,
    currentIndex := t.currentIndex, totalMessages := t.messages.length,
    threadId := t.config.threadId, delay := t.config.delay,
    sessionId := t.sessionId }

/-- A connected socket: on connection it joined the room named after its
own session id (`socket.join(sessionId)`). -/
structure Subscriber where
  socketId : String
  sessionId : String
deriving DecidableEq, Repr

/-- `io.to(room).emit(...)`: the subscribers that receive an event emitted to
`room`. `emitStatus` emits to the room `this.sessionId`. -/
def publish (subs : List Subscriber) (room : String) : List Subscriber :=
  subs.filter (fun sub => sub.sessionId = room)

/-- The subscribers that observe a status event of task `t`
(`io.to(this.sessionId).emit('taskUpdate', data)`). -/
def deliveredTo (subs : List Subscriber) (t : MessageSender) : List Subscriber :=
  publish subs t.sessionId

/-! ### parseCookies -/

/-- A puppeteer cookie record as built by `MessageSender.parseCookies`. -/
structure Cookie where
  name : String
  value : String
  domain : String
  path : String
  httpOnly : Bool
  secure : Bool
deriving DecidableEq, Repr

/-- JS array indexing `l[i]` with a default standing for `undefined`
(which is falsy, like the empty string). -/
def nth (d : α) : List α → Nat → α
  | [], _ => d
  | a :: _, 0 => a
  | _ :: rest, i + 1 => nth d rest i

/-- The body of the `for` loop of `parseCookies`:
`const [name, value] = pair.trim().split('=')` takes the first two
segments (`value` is `undefined`, hence falsy, when there is no `=`); the
entry is pushed only when both `name` and `value` are truthy (non-empty
strings), with both trimmed. -/
def parseCookiePair (pair : List Char) : Option Cookie :=
  let parts := splitOnChar '=' (jsTrim pair)
  let name := nth [] parts 0
  let value := nth [] parts 1
  if name = [] ∨ value = [] then none
  else some
    { name := String.mk (jsTrim name), value := String.mk (jsTrim value),
      domain := ".facebook.com", path := "/", httpOnly := false,
      secure := true }

/-- `MessageSender.parseCookies(cookieString)`: split on `;` and keep the
entries the loop body accepts, in order. -/
def parseCookies (cookieString : String) : List Cookie :=
  (splitOnChar ';' cookieString.data).filterMap parseCookiePair

/-! ### Session registry and orchestrator routes -/

/-- `sessionTasks[sessionId]`: task key → task. -/
abbrev TaskMap := List (String × MessageSender)

/-- `let sessionTasks = {}`: session id → task map. (`sessionBrowsers`
mirrors its keys with driver handles and carries no additional
registry-visible state, so it is not duplicated here.) -/
abbrev Registry := List (String × TaskMap)

/-- `initSessionTasks(sessionId)`: create the empty per-session map when
absent. -/
def initSessionTasks (sessionId : String) (reg : Registry) : Registry :=
  match mapGet sessionId reg with
  | none => mapSet sessionId [] reg
  | some _ => reg

/-- The registry half of `MessageSender.cleanup`:
`if (sessionTasks[this.sessionId]) delete sessionTasks[this.sessionId][this.taskId]`
(closing the page and browser is external-driver teardown whose failures are
caught and logged). -/
def cleanupReg (reg : Registry) (sessionId taskId : String) : Registry :=
  match mapGet sessionId reg with
  | some m => mapSet sessionId (mapDel taskId m) reg
  | none => reg

/-- The body fields of a `/start-task` request after upload handling:
`hasFile` is whether `req.file` is present; `delay` is the parsed
`parseInt(delay)` (the raw field is required to be present). -/
structure StartRequest where
  cookie : String
  threadId : String
  hattersName : String
  delay : Nat
  hasFile : Bool
deriving DecidableEq, Repr

/-- Synchronous outcome of `app.post('/start-task')`. -/
inductive StartOutcome
  | missingFields
  | duplicate
  | ok (taskId : String)
deriving DecidableEq, Repr

/-- `app.post('/start-task')`: initialise the session entry, reject missing
fields, reject a key already present in this session
(`if (sessionTasks[sessionId][threadId])`), otherwise construct the sender
under `taskId = threadId` and insert it. The asynchronous
`sender.start()` is modelled separately by `MessageSender.start`. -/
def startTask (reg : Registry) (sessionId : String) (req : StartRequest) :
    StartOutcome × Registry :=
  let reg1 := initSessionTasks sessionId reg
  if req.cookie = "" ∨ req.threadId = "" ∨ req.hasFile = false then
    (.missingFields, reg1)
  else
    match (mapGet sessionId reg1).getD [] |> mapGet req.threadId with
    | some _ => (.duplicate, reg1)
    | none =>
      let taskId := req.threadId
      let config : Config :=
        { cookie := req.cookie, threadId := req.threadId,
          hattersName := req.hattersName, delay := req.delay }
      let sender := MessageSender.mk0 taskId config sessionId
      (.ok taskId, mapSet sessionId (mapSet taskId sender ((mapGet sessionId reg1).getD [])) reg1)

/-- One row of the `/active-tasks` response. -/
structure TaskSummary where
  taskId : String
  isRunning : Bool
  totalSent : Nat
  currentIndex : Nat
  totalMessages : Nat
  sessionId : String
deriving DecidableEq, Repr

/-- `app.get('/active-tasks')`: initialise the session entry, then list the
tasks of the caller session only. -/
def listTasks (reg : Registry) (sessionId : String) :
    List TaskSummary × Registry :=
  let reg1 := initSessionTasks sessionId reg
  let m := (mapGet sessionId reg1).getD []
  (m.map fun kv =>
    { taskId := kv.1, isRunning := kv.2.isRunning, totalSent := kv.2.totalSent,
      currentIndex := kv.2.currentIndex,
      totalMessages := kv.2.messages.length, sessionId }, reg1)

/-! ### Task state machine: init, start, send loop, stop -/

/-- `fileContent.split('\n').map(msg => msg.trim()).filter(msg => msg.length > 0)`. -/
def normalizeMessages (fileContent : String) : List String :=
  (((splitOnChar '\n' fileContent.data).map jsTrim).filter
    (fun m => m.length > 0)).map String.mk

/-- `MessageSender.init()`: load and normalise the message list; an empty
result throws `'No valid messages found in file'`, which the catch turns
into an error status and `false`. The browser launch that follows the check
is external-driver setup. Returns (updated task, emitted events, success). -/
def MessageSender.init (t : MessageSender) (fileContent : String) :
    MessageSender × List StatusEvent × Bool :=
  let t1 := { t with messages := normalizeMessages fileContent }
  if t1.messages.length = 0 then
    (t1, [t1.statusEvent "error" "Initialization failed: No valid messages found in file"], false)
  else
    (t1, [], true)

/-- Outcome of the navigation phase of `start` (goto facebook, set cookies,
goto the conversation): external-driver I/O that either succeeds or throws
with a message. -/
inductive NavOutcome
  | ok
  | fail (msg : String)
deriving DecidableEq, Repr

/-- `MessageSender.start()` up to the entry of the send loop: failed init
returns immediately; otherwise set the running flag, emit `starting`,
navigate (outcome `nav`), and on success emit `active` and enter
`sendMessages` (the returned flag); on navigation failure emit `error`,
clear the running flag, and clean up. -/
def MessageSender.start (t : MessageSender) (fileContent : String)
    (nav : NavOutcome) (reg : Registry) :
    MessageSender × List StatusEvent × Registry × Bool :=
  match t.init fileContent with
  | (t1, evs, false) => (t1, evs, reg, false)
  | (t1, evs, true) =>
    let t2 := { t1 with isRunning := true }
    let e1 := t2.statusEvent "starting" "Initializing browser and navigating to Facebook..."
    match nav with
    | .ok =>
      let e2 := t2.statusEvent "active" "Connected to Facebook. Starting message sending..."
      (t2, evs ++ [e1, e2], reg, true)
    | .fail msg =>
      let e2 := t2.statusEvent "error" ("Failed to start: " ++ msg)
      let t3 := { t2 with isRunning := false }
      (t3, evs ++ [e1, e2], cleanupReg reg t3.sessionId t3.taskId, false)

/-- Outcome of one attempt to locate the input surface and submit the
current message: success, or a thrown error with its message (the source
throws `'Message textbox not found'` when the textbox is missing; driver
timeouts and submit errors carry their own messages). -/
inductive SendOutcome
  | ok
  | fail (msg : String)
deriving DecidableEq, Repr

/-- The error signature `sendMessages` classifies as fatal:
`error.message.includes('textbox not found')`. -/
def fatalSignature : String := "textbox not found"

/-- Result of one iteration of the `while (this.isRunning)` body of
`sendMessages`: the updated task, the events emitted, the wait performed
(`delay * 1000` ms after a send, the fixed 5000 ms backoff after an error),
whether the loop continues (`false` exactly on the fatal `break`), and the
message/index the iteration worked on
(`originalMessage = this.messages[this.currentIndex]`). -/
structure IterResult where
  task : MessageSender
  events : List StatusEvent
  waitMs : Nat
  continueLoop : Bool
  usedIndex : Nat
  originalMessage : String
deriving DecidableEq, Repr

/-- Truncated message quote used in the per-send status:
`originalMessage.substring(0, 50)` followed by `'...'` when longer. -/
def quoteMessage (orig : String) : String :=
  String.mk (substringTo orig.data 50) ++
    (if 50 < orig.data.length then "..." else "")

/-- One iteration of the `sendMessages` loop body, the submit attempt
abstracted to `outcome`. On success: increment `totalSent`, advance the
cursor circularly, emit an `active` status, wait `delay * 1000` ms. On
failure: emit an `error` status, wait 5000 ms, and if the message matches
`fatalSignature` emit the terminal error and break; otherwise continue with
the cursor unchanged. -/
def MessageSender.sendIteration (t : MessageSender) (outcome : SendOutcome) :
    IterResult :=
  let originalMessage := t.messages.getD t.currentIndex ""
  match outcome with
  | .ok =>
    let t1 := { t with totalSent := t.totalSent + 1,
                       currentIndex := (t.currentIndex + 1) % t.messages.length }
    { task := t1,
      events := [t1.statusEvent "active"
        ("Message " ++ toString t1.totalSent ++ " sent. Current: \"" ++
          quoteMessage originalMessage ++ "\"")],
      waitMs := t.config.delay * 1000, continueLoop := true,
      usedIndex := t.currentIndex, originalMessage }
  | .fail msg =>
    let e1 := t.statusEvent "error" ("Error sending message: " ++ msg)
    if strIncludes msg fatalSignature then
      { task := t,
        events := [e1, t.statusEvent "error" "Cannot find message input. Stopping task."],
        waitMs := 5000, continueLoop := false,
        usedIndex := t.currentIndex, originalMessage }
    else
      { task := t, events := [e1], waitMs := 5000, continueLoop := true,
        usedIndex := t.currentIndex, originalMessage }

/-- `MessageSender.sendMessages()` driven by a finite prefix of submit
outcomes: the loop runs while `isRunning`, consuming one outcome per
iteration; on exit (flag cleared or fatal `break`) `cleanup()` runs. An
exhausted outcome list with the loop still running returns without cleanup
(the loop would keep going). -/
def MessageSender.sendMessages (t : MessageSender) (reg : Registry) :
    List SendOutcome → MessageSender × List StatusEvent × Registry
  | [] =>
    if t.isRunning then (t, [], reg)
    else (t, [], cleanupReg reg t.sessionId t.taskId)
  | o :: rest =>
    if t.isRunning then
      let r := t.sendIteration o
      if r.continueLoop then
        let (t', evs, reg') := r.task.sendMessages reg rest
        (t', r.events ++ evs, reg')
      else
        (r.task, r.events, cleanupReg reg r.task.sessionId r.task.taskId)
    else (t, [], cleanupReg reg t.sessionId t.taskId)

/-- `MessageSender.stop()`: clear the running flag, set `stopTime`, emit
`stopping`, run `cleanup()`, emit the terminal `stopped` status with the
total sent count. -/
def MessageSender.stop (t : MessageSender) (reg : Registry) :
    MessageSender × List StatusEvent × Registry :=
  let t1 := { t with isRunning := false, stopTimeSet := true }
  let e1 := t1.statusEvent "stopping" "Stopping task..."
  let reg1 := cleanupReg reg t1.sessionId t1.taskId
  let e2 := t1.statusEvent "stopped"
    ("Task stopped. Total messages sent: " ++ toString t1.totalSent)
  (t1, [e1, e2], reg1)

/-! ### Periodic session reclamation -/

/-- The registry plus the deferred deletions scheduled by
`setTimeout(() => { delete sessionTasks[sessionId]; ... }, 3600000)` that
have not fired yet. -/
structure SweepState where
  reg : Registry
  pending : List String
deriving DecidableEq, Repr

/-- The `setInterval` sweep body: every session whose task map is empty at
sweep time gets a deletion scheduled. -/
def sweep (s : SweepState) : SweepState :=
  { s with pending :=
      s.pending ++ (s.reg.filter (fun kv => kv.2.length = 0)).map Prod.fst }

/-- Expiry of one scheduled deletion: the timer callback deletes the
session entry unconditionally. -/
def fireTimeout (s : SweepState) (sessionId : String) : SweepState :=
  if sessionId ∈ s.pending then
    { reg := mapDel sessionId s.reg, pending := s.pending.erase sessionId }
  else s

/-- A `/start-task` arriving between sweep steps. -/
def createStep (s : SweepState) (sessionId : String) (req : StartRequest) :
    SweepState :=
  { s with reg := (startTask s.reg sessionId req).2 }

/-! ### Iterated successful sends, and concrete fixtures -/

/-- `M` consecutive successful iterations of the `sendMessages` loop body. -/
def runSends (t : MessageSender) : Nat → MessageSender
  | 0 => t
  | M + 1 => ((runSends t M).sendIteration .ok).task

/-- The configuration of the spec scenario: message list `["hi","there"]`,
delay 1 s, no prefix. -/
def hiThereConfig : Config :=
  { cookie := "c", threadId := "T", hattersName := "", delay := 1 }

/-- The spec-scenario task, as it stands when the send loop is entered. -/
def hiThereTask : MessageSender :=
  { taskId := "T", config := hiThereConfig, sessionId := "s",
    isRunning := true, currentIndex := 0, totalSent := 0,
    messages := ["hi", "there"], stopTimeSet := false }

/-- A running task whose configured delay is 5 seconds. -/
def delay5Task : MessageSender :=
  { taskId := "T",
    config := { cookie := "c", threadId := "T", hattersName := "", delay := 5 },
    sessionId := "s", isRunning := true, currentIndex := 0, totalSent := 0,
    messages := ["hi"], stopTimeSet := false }

/-- A running task mid-way through its list, for the stop scenarios. -/
def stopFixture : MessageSender :=
  { taskId := "T", config := hiThereConfig, sessionId := "s",
    isRunning := true, currentIndex := 1, totalSent := 3,
    messages := ["hi", "there"], stopTimeSet := false }

/-- A registry holding only `stopFixture` under session `"s"`. -/
def stopReg : Registry := [("s", [("T", stopFixture)])]

/-- A well-formed `/start-task` request for target `"T"`. -/
def reqT : StartRequest :=
  { cookie := "c1", threadId := "T", hattersName := "", delay := 1,
    hasFile := true }

/-- A second well-formed request for the same target `"T"` with different
credential/prefix/delay fields. -/
def reqTother : StartRequest :=
  { cookie := "c2", threadId := "T", hattersName := "x", delay := 2,
    hasFile := true }

/-- A well-formed request for a different target `"U"`. -/
def reqU : StartRequest :=
  { cookie := "c1", threadId := "U", hattersName := "", delay := 1,
    hasFile := true }

/-- Sweep-scenario start state: session `"s"` registered with zero tasks,
no deletion scheduled yet. -/
def sweepState0 : SweepState := { reg := [("s", [])], pending := [] }

/-! ### Association-list lemmas -/

theorem mapGet_mapSet_self (k : String) (v : α) (m : List (String × α)) :
    mapGet k (mapSet k v m) = some v := by
  induction m with
  | nil => simp [mapSet, mapGet]
  | cons kv rest ih =>
    obtain ⟨k', v'⟩ := kv
    by_cases h : k' = k <;> simp [mapSet, mapGet, h, ih]

theorem mapGet_mapSet_ne (k k' : String) (v : α) (m : List (String × α))
    (h : k' ≠ k) : mapGet k' (mapSet k v m) = mapGet k' m := by
  induction m with
  | nil => simp [mapSet, mapGet, Ne.symm h]
  | cons kv rest ih =>
    obtain ⟨k0, v0⟩ := kv
    by_cases h0 : k0 = k
    · subst h0
      simp [mapSet, mapGet, Ne.symm h]
    · simp only [mapSet, if_neg h0, mapGet, ih]

theorem mapGet_mapDel_ne (k k' : String) (m : List (String × α))
    (h : k' ≠ k) : mapGet k' (mapDel k m) = mapGet k' m := by
  induction m with
  | nil => simp [mapDel]
  | cons kv rest ih =>
    obtain ⟨k0, v0⟩ := kv
    by_cases h0 : k0 = k
    · subst h0
      simp [mapDel, mapGet, Ne.symm h]
    · simp only [mapDel, if_neg h0, mapGet, ih]

theorem mapGet_eq_none_of_not_mem (k : String) (m : List (String × α))
    (h : k ∉ m.map Prod.fst) : mapGet k m = none := by
  induction m with
  | nil => rfl
  | cons kv rest ih =>
    simp only [List.map_cons, List.mem_cons] at h
    push_neg at h
    simp [mapGet, Ne.symm h.1, ih h.2]

theorem mapDel_sublist (k : String) (m : List (String × α)) :
    (mapDel k m).Sublist m := by
  induction m with
  | nil => simp [mapDel]
  | cons kv rest ih =>
    by_cases h : kv.1 = k
    · simp only [mapDel, h, if_pos rfl]
      exact (List.sublist_cons_self kv rest)
    · simpa [mapDel, h] using ih.cons₂ kv

theorem mapGet_mapDel_self (k : String) (m : List (String × α))
    (hnd : MapNodup m) : mapGet k (mapDel k m) = none := by
  induction m with
  | nil => rfl
  | cons kv rest ih =>
    obtain ⟨k0, v0⟩ := kv
    simp only [MapNodup, List.map_cons, List.nodup_cons] at hnd
    by_cases h0 : k0 = k
    · subst h0
      simp only [mapDel, if_pos rfl]
      exact mapGet_eq_none_of_not_mem _ _ hnd.1
    · simp [mapDel, mapGet, h0, ih hnd.2]

theorem mapDel_eq_self_of_not_mem (k : String) (m : List (String × α))
    (h : k ∉ m.map Prod.fst) : mapDel k m = m := by
  induction m with
  | nil => rfl
  | cons kv rest ih =>
    simp only [List.map_cons, List.mem_cons] at h
    push_neg at h
    simp [mapDel, Ne.symm h.1, ih h.2]

theorem mapSet_mapSet_self (k : String) (v w : α) (m : List (String × α)) :
    mapSet k v (mapSet k w m) = mapSet k v m := by
  induction m with
  | nil => simp [mapSet]
  | cons kv rest ih =>
    obtain ⟨k0, v0⟩ := kv
    by_cases h0 : k0 = k <;> simp [mapSet, h0, ih]

theorem mapDel_mapDel_self (k : String) (m : List (String × α))
    (hnd : MapNodup m) : mapDel k (mapDel k m) = mapDel k m := by
  induction m with
  | nil => rfl
  | cons kv rest ih =>
    obtain ⟨k0, v0⟩ := kv
    simp only [MapNodup, List.map_cons, List.nodup_cons] at hnd
    by_cases h0 : k0 = k
    · subst h0
      simp only [mapDel, if_pos rfl]
      exact mapDel_eq_self_of_not_mem _ _ hnd.1
    · simp [mapDel, h0, ih hnd.2]

/-- `initSessionTasks` does not touch other sessions. -/
theorem mapGet_initSessionTasks_ne (s s' : String) (reg : Registry)
    (h : s' ≠ s) : mapGet s' (initSessionTasks s reg) = mapGet s' reg := by
  unfold initSessionTasks
  cases hg : mapGet s reg with
  | none => simp [mapGet_mapSet_ne _ _ _ _ h]
  | some m => rfl

/-- The map `initSessionTasks` leaves for its own session. -/
theorem mapGet_initSessionTasks_self (s : String) (reg : Registry) :
    mapGet s (initSessionTasks s reg) = some ((mapGet s reg).getD []) := by
  unfold initSessionTasks
  cases hg : mapGet s reg with
  | none => simp [mapGet_mapSet_self]
  | some m => simp [hg]

/-- `startTask` under session `s1` does not change the map of any other
session. -/
theorem mapGet_startTask_ne (reg : Registry) (s1 s2 : String)
    (req : StartRequest) (h : s2 ≠ s1) :
    mapGet s2 (startTask reg s1 req).2 = mapGet s2 reg := by
  have hinit := mapGet_initSessionTasks_ne s1 s2 reg h
  by_cases hv : req.cookie = "" ∨ req.threadId = "" ∨ req.hasFile = false
  · simp [startTask, hv, hinit]
  · cases hm : mapGet req.threadId ((mapGet s1 (initSessionTasks s1 reg)).getD []) with
    | some t => simp [startTask, hv, hm, hinit]
    | none => simp [startTask, hv, hm, hinit, mapGet_mapSet_ne _ _ _ _ h]

/-- The rows of `/active-tasks` are a pure function of the caller session's
map. -/
theorem listTasks_fst (reg : Registry) (s : String) :
    (listTasks reg s).1 = ((mapGet s reg).getD []).map (fun kv =>
      { taskId := kv.1, isRunning := kv.2.isRunning,
        totalSent := kv.2.totalSent, currentIndex := kv.2.currentIndex,
        totalMessages := kv.2.messages.length,
        sessionId := s : TaskSummary }) := by
  simp [listTasks, mapGet_initSessionTasks_self]

/-- A successful `mapGet` is backed by an entry of the list. -/
theorem mapGet_mem (k : String) (m : List (String × α)) (v : α)
    (h : mapGet k m = some v) : (k, v) ∈ m := by
  induction m with
  | nil => simp [mapGet] at h
  | cons kv rest ih =>
    obtain ⟨k0, v0⟩ := kv
    by_cases h0 : k0 = k
    · subst h0
      rw [mapGet, if_pos rfl] at h
      have hv := Option.some.inj h
      subst hv
      exact List.mem_cons_self _ _
    · simp only [mapGet, if_neg h0] at h
      exact List.mem_cons_of_mem _ (ih h)

/-! ### Split/trim lemmas -/

/-- No fragment produced by `splitOnChar sep` contains the separator. -/
theorem not_mem_splitOnChar (sep : Char) (l : List Char) :
    ∀ g ∈ splitOnChar sep l, sep ∉ g := by
  induction l with
  | nil =>
    intro g hg
    simp only [splitOnChar, List.mem_singleton] at hg
    subst hg
    simp
  | cons c cs ih =>
    intro g hg
    by_cases hc : c = sep
    · simp only [splitOnChar, if_pos hc] at hg
      rcases List.mem_cons.mp hg with h | h
      · subst h; simp
      · exact ih g h
    · simp only [splitOnChar, if_neg hc] at hg
      cases hsplit : splitOnChar sep cs with
      | nil =>
        rw [hsplit] at hg
        simp only [List.mem_singleton] at hg
        subst hg
        simp [Ne.symm hc]
      | cons g0 gs =>
        rw [hsplit] at hg
        rcases List.mem_cons.mp hg with h | h
        · subst h
          intro hmem
          rcases List.mem_cons.mp hmem with h' | h'
          · exact hc h'.symm
          · exact ih g0 (hsplit ▸ List.mem_cons_self g0 gs) h'
        · exact ih g (hsplit ▸ List.mem_cons_of_mem g0 h)

/-- `jsTrim` keeps only characters of the original fragment. -/
theorem jsTrim_subset (l : List Char) : ∀ a ∈ jsTrim l, a ∈ l := by
  intro a ha
  unfold jsTrim at ha
  rw [List.mem_reverse] at ha
  have h1 : a ∈ (l.dropWhile isJsWs).reverse :=
    (List.dropWhile_sublist _).subset ha
  rw [List.mem_reverse] at h1
  exact (List.dropWhile_sublist _).subset h1

/-- `nth d l i` is an element of `l` or the default. -/
theorem nth_mem_or (l : List α) (i : Nat) (d : α) :
    nth d l i ∈ l ∨ nth d l i = d := by
  induction l generalizing i with
  | nil => right; rfl
  | cons a rest ih =>
    cases i with
    | zero => left; simp [nth]
    | succ j =>
      rcases ih j with h | h
      · left; simp only [nth]; exact List.mem_cons_of_mem _ h
      · right; simpa [nth] using h

/-! ### Send-loop bookkeeping -/

/-- State evolution under consecutive successful sends, from a cursor at 0:
the message list is untouched, the sent count counts the sends, and the
cursor is the send count modulo the list length. -/
theorem runSends_spec (t : MessageSender) (hidx : t.currentIndex = 0) :
    ∀ M : Nat, (runSends t M).messages = t.messages ∧
      (runSends t M).totalSent = t.totalSent + M ∧
      (runSends t M).currentIndex = M % t.messages.length := by
  intro M
  induction M with
  | zero => simp [runSends, hidx]
  | succ M ih =>
    obtain ⟨hmsg, hsent, hcur⟩ := ih
    refine ⟨?_, ?_, ?_⟩
    · simp [runSends, MessageSender.sendIteration, hmsg]
    · simp [runSends, MessageSender.sendIteration, hsent]
      omega
    · simp only [runSends, MessageSender.sendIteration]
      rw [hcur, hmsg, Nat.mod_add_mod]


/-! ### Claim theorems -/

/-- Claim C4: circular replay correctness. For a task whose normalized
message list has length N and whose cursor and sent count start at 0, after
any number M of successful sends the sent count is M and the cursor is
M mod N; in the scenario with list ["hi","there"], after 3 successful
sends the count is 3, the cursor is 1, and the 3rd send used index 0,
i.e. the message "hi". -/
theorem C4_circular_replay (t : MessageSender) (M : Nat)
    (_hlen : 1 ≤ t.messages.length) (hidx : t.currentIndex = 0)
    (hsent : t.totalSent = 0) :
    (runSends t M).totalSent = M ∧
    (runSends t M).currentIndex = M % t.messages.length ∧
    (runSends hiThereTask 3).totalSent = 3 ∧
    (runSends hiThereTask 3).currentIndex = 1 ∧
    ((runSends hiThereTask 2).sendIteration .ok).usedIndex = 0 ∧
    ((runSends hiThereTask 2).sendIteration .ok).originalMessage = "hi" := by
  obtain ⟨hm, hs, hc⟩ := runSends_spec t hidx M
  exact ⟨by rw [hs, hsent]; omega, hc, by decide, by decide, by decide, by decide⟩

/-- Witness for C4 at the scenario task and M = 5. -/
theorem C4_circular_replay_witness :
    (1 ≤ hiThereTask.messages.length ∧ hiThereTask.currentIndex = 0 ∧
      hiThereTask.totalSent = 0) ∧
    ((runSends hiThereTask 5).totalSent = 5 ∧
      (runSends hiThereTask 5).currentIndex = 5 % hiThereTask.messages.length ∧
      (runSends hiThereTask 3).totalSent = 3 ∧
      (runSends hiThereTask 3).currentIndex = 1 ∧
      ((runSends hiThereTask 2).sendIteration .ok).usedIndex = 0 ∧
      ((runSends hiThereTask 2).sendIteration .ok).originalMessage = "hi") :=
  ⟨⟨by decide, by decide, by decide⟩,
    C4_circular_replay hiThereTask 5 (by decide) (by decide) (by decide)⟩

/-- Claim C5: empty-list rejection. For every input whose message list is
empty after normalization (trim each line, drop blank lines), start fails
during initialization with exactly one Error status event, no event has
the active status, the send loop is never entered, and the registry is
untouched. -/
theorem C5_empty_list_rejected (t : MessageSender) (content : String)
    (nav : NavOutcome) (reg : Registry)
    (h : normalizeMessages content = []) :
    (t.start content nav reg).2.2.2 = false ∧
    (t.start content nav reg).2.1 =
      [({ t with messages := [] } : MessageSender).statusEvent "error"
          "Initialization failed: No valid messages found in file"] ∧
    (∀ e ∈ (t.start content nav reg).2.1, e.status = "error" ∧ e.status ≠ "active") ∧
    (t.start content nav reg).2.2.1 = reg := by
  have hinit : t.init content =
      ({ t with messages := [] },
        [({ t with messages := [] } : MessageSender).statusEvent "error"
            "Initialization failed: No valid messages found in file"], false) := by
    simp [MessageSender.init, h]
  refine ⟨?_, ?_, ?_, ?_⟩ <;>
    simp [MessageSender.start, hinit, MessageSender.statusEvent]

/-- Witness for C5 at a whitespace-only file content. -/
theorem C5_witness :
    normalizeMessages "\n  \n" = [] ∧
    ((MessageSender.mk0 "T" hiThereConfig "s").start "\n  \n" .ok [] ).2.2.2 = false :=
  ⟨by decide, (C5_empty_list_rejected (MessageSender.mk0 "T" hiThereConfig "s")
      "\n  \n" .ok [] (by decide)).1⟩

/-- Claim C10: credential-string parsing. parseCookies splits on semicolon
and then on the equals sign; a pair whose value contains a further equals
sign is truncated to the segment before it, a fragment with no equals sign
or an empty name or value yields no entry, and therefore no parsed entry
has a value containing the equals sign. -/
theorem C10_parseCookies (s : String) (c : Cookie) (hc : c ∈ parseCookies s) :
    (∀ ch ∈ c.value.data, ch ≠ '=') ∧
    parseCookies "a=b=c" =
      [{ name := "a", value := "b", domain := ".facebook.com", path := "/",
         httpOnly := false, secure := true }] ∧
    parseCookies "abc" = [] ∧ parseCookies "=b" = [] ∧
    parseCookies "a=" = [] ∧ parseCookies "a==b" = [] := by
  refine ⟨?_, by decide, by decide, by decide, by decide, by decide⟩
  intro ch hch
  obtain ⟨pair, hpair, hf⟩ := List.mem_filterMap.mp hc
  simp only [parseCookiePair] at hf
  by_cases hcond : nth [] (splitOnChar '=' (jsTrim pair)) 0 = [] ∨
      nth [] (splitOnChar '=' (jsTrim pair)) 1 = []
  · rw [if_pos hcond] at hf
    exact absurd hf (by simp)
  · rw [if_neg hcond] at hf
    obtain rfl := Option.some.inj hf
    intro heq
    subst heq
    have h1 : ('=' : Char) ∈ nth [] (splitOnChar '=' (jsTrim pair)) 1 :=
      jsTrim_subset _ _ hch
    rcases nth_mem_or (splitOnChar '=' (jsTrim pair)) 1 [] with hmem | hdef
    · exact not_mem_splitOnChar '=' (jsTrim pair) _ hmem h1
    · rw [hdef] at h1
      simp at h1

/-- Witness for C10 at the bundle "k=v". -/
theorem C10_witness :
    ((⟨"k", "v", ".facebook.com", "/", false, true⟩ : Cookie) ∈ parseCookies "k=v") ∧
    (∀ ch ∈ (⟨"k", "v", ".facebook.com", "/", false, true⟩ : Cookie).value.data, ch ≠ '=') :=
  ⟨by decide, (C10_parseCookies "k=v" _ (by decide)).1⟩

/-- A `/start-task` request whose key is already present in the caller
session map is rejected as duplicate and inserts nothing. -/
theorem startTask_present (reg : Registry) (s : String) (req : StartRequest)
    (hv : ¬(req.cookie = "" ∨ req.threadId = "" ∨ req.hasFile = false))
    (t : MessageSender)
    (hpres : mapGet req.threadId ((mapGet s reg).getD []) = some t) :
    startTask reg s req = (.duplicate, initSessionTasks s reg) := by
  have hgetD : (mapGet s (initSessionTasks s reg)).getD [] = (mapGet s reg).getD [] := by
    rw [mapGet_initSessionTasks_self]; rfl
  simp [startTask, hv, hgetD, hpres]

/-- A valid `/start-task` request whose key is absent constructs the sender
under `taskId = threadId` and inserts it into the caller session map. -/
theorem startTask_absent (reg : Registry) (s : String) (req : StartRequest)
    (hv : ¬(req.cookie = "" ∨ req.threadId = "" ∨ req.hasFile = false))
    (habs : mapGet req.threadId ((mapGet s reg).getD []) = none) :
    startTask reg s req =
      (.ok req.threadId,
        mapSet s (mapSet req.threadId
            (MessageSender.mk0 req.threadId
              { cookie := req.cookie, threadId := req.threadId,
                hattersName := req.hattersName, delay := req.delay } s)
            ((mapGet s reg).getD []))
          (initSessionTasks s reg)) := by
  have hgetD : (mapGet s (initSessionTasks s reg)).getD [] = (mapGet s reg).getD [] := by
    rw [mapGet_initSessionTasks_self]; rfl
  simp [startTask, hv, hgetD, habs]

/-- A successful `/start-task` always reports the target identifier itself
as the task id. -/
theorem startTask_ok_tid (r : Registry) (s : String) (req : StartRequest)
    (tid : String) (reg' : Registry)
    (h : startTask r s req = (.ok tid, reg')) : tid = req.threadId := by
  by_cases hv : req.cookie = "" ∨ req.threadId = "" ∨ req.hasFile = false
  · simp [startTask, hv] at h
  · cases hm : mapGet req.threadId ((mapGet s (initSessionTasks s r)).getD []) with
    | some t => simp [startTask, hv, hm] at h
    | none =>
      simp [startTask, hv, hm] at h
      exact h.1.symm

/-- Claim C1: session isolation. A task created under session S1 never
changes the `/active-tasks` listing of another session S2, the status
events of a task carry the owning session id, and delivery
(`io.to(sessionId)`) reaches only subscribers whose room is the owning
session: a subscriber of S2 never receives them. -/
theorem C1_session_isolation (reg : Registry) (s1 s2 : String)
    (req : StartRequest) (subs : List Subscriber) (t : MessageSender)
    (st msg : String) (hne : s1 ≠ s2) (hown : t.sessionId = s1) :
    (listTasks (startTask reg s1 req).2 s2).1 = (listTasks reg s2).1 ∧
    (t.statusEvent st msg).sessionId = s1 ∧
    (∀ sub ∈ deliveredTo subs t, sub.sessionId = s1) ∧
    (∀ sub ∈ subs, sub.sessionId = s2 → sub ∉ deliveredTo subs t) := by
  refine ⟨?_, ?_, ?_, ?_⟩
  · rw [listTasks_fst, listTasks_fst, mapGet_startTask_ne reg s1 s2 req (Ne.symm hne)]
  · simp [MessageSender.statusEvent, hown]
  · intro sub hsub
    simp only [deliveredTo, publish, List.mem_filter, decide_eq_true_eq] at hsub
    rw [hsub.2, hown]
  · intro sub _ heq hmem
    simp only [deliveredTo, publish, List.mem_filter, decide_eq_true_eq] at hmem
    apply hne
    rw [← hown, ← hmem.2, heq]

/-- Witness for C1 at sessions "s" and "u" with two subscribers. -/
theorem C1_witness :
    ("s" ≠ "u" ∧ hiThereTask.sessionId = "s") ∧
    ((listTasks (startTask [] "s" reqT).2 "u").1 = (listTasks [] "u").1 ∧
      (hiThereTask.statusEvent "active" "m").sessionId = "s" ∧
      (∀ sub ∈ deliveredTo [⟨"sock1", "s"⟩, ⟨"sock2", "u"⟩] hiThereTask,
        sub.sessionId = "s") ∧
      (∀ sub ∈ ([⟨"sock1", "s"⟩, ⟨"sock2", "u"⟩] : List Subscriber),
        sub.sessionId = "u" →
          sub ∉ deliveredTo [⟨"sock1", "s"⟩, ⟨"sock2", "u"⟩] hiThereTask)) :=
  ⟨⟨by decide, by decide⟩,
    C1_session_isolation [] "s" "u" reqT [⟨"sock1", "s"⟩, ⟨"sock2", "u"⟩]
      hiThereTask "active" "m" (by decide) (by decide)⟩

/-- Claim C2: per-session key uniqueness and reuse. A start-task request
whose key is present and not yet cleaned up in the caller session is
rejected synchronously as duplicate with the registry unchanged; after the
cleanup of the existing task removes the entry, a request with the same
key succeeds. -/
theorem C2_key_uniqueness_and_reuse (reg : Registry) (s : String)
    (m : TaskMap) (t0 : MessageSender) (req req' : StartRequest)
    (hm : mapGet s reg = some m) (hk : mapGet req.threadId m = some t0)
    (hnd : MapNodup m)
    (hreq : ¬(req.cookie = "" ∨ req.threadId = "" ∨ req.hasFile = false))
    (hreq' : ¬(req'.cookie = "" ∨ req'.threadId = "" ∨ req'.hasFile = false))
    (hsame : req'.threadId = req.threadId) :
    startTask reg s req = (.duplicate, reg) ∧
    (startTask (cleanupReg reg s req.threadId) s req').1 = .ok req.threadId := by
  have hinit : initSessionTasks s reg = reg := by simp [initSessionTasks, hm]
  constructor
  · have hpres : mapGet req.threadId ((mapGet s reg).getD []) = some t0 := by
      rw [hm]; exact hk
    rw [startTask_present reg s req hreq t0 hpres, hinit]
  · have hclean : cleanupReg reg s req.threadId =
        mapSet s (mapDel req.threadId m) reg := by
      simp [cleanupReg, hm]
    have habs : mapGet req'.threadId
        ((mapGet s (mapSet s (mapDel req.threadId m) reg)).getD []) = none := by
      rw [mapGet_mapSet_self]
      simp only [Option.getD_some]
      rw [hsame]
      exact mapGet_mapDel_self _ _ hnd
    rw [hclean, startTask_absent _ _ _ hreq' habs]
    simp [hsame]

/-- Witness for C2 at a one-task registry under session "s". -/
theorem C2_witness :
    (mapGet "s" stopReg = some [("T", stopFixture)] ∧
      mapGet reqT.threadId [("T", stopFixture)] = some stopFixture ∧
      MapNodup [("T", stopFixture)]) ∧
    (startTask stopReg "s" reqT = (.duplicate, stopReg) ∧
      (startTask (cleanupReg stopReg "s" reqT.threadId) "s" reqTother).1 =
        .ok reqT.threadId) :=
  ⟨⟨by decide, by decide, by decide⟩,
    C2_key_uniqueness_and_reuse stopReg "s" [("T", stopFixture)] stopFixture
      reqT reqTother (by decide) (by decide) (by decide) (by decide)
      (by decide) (by decide)⟩

/-- Counterexample to claim C3: a session that is empty at sweep time gets
a deletion scheduled; a task created during the grace window does not
prevent the expiry callback from deleting the session entry - after the
expiry the session (holding one task) is gone. -/
theorem C3_counterexample :
    ((mapGet "s" (createStep (sweep sweepState0) "s" reqT).reg).getD []).length = 1 ∧
    "s" ∈ (createStep (sweep sweepState0) "s" reqT).pending ∧
    mapGet "s" (fireTimeout (createStep (sweep sweepState0) "s" reqT) "s").reg = none := by
  decide

/-- Claim C3 as amended: the sweep schedules deletion for every session
whose task map is empty at sweep time, and the expiry callback deletes the
scheduled session entry unconditionally, without re-checking emptiness -
even if the session acquired tasks during the grace window. -/
theorem C3_schedule_then_delete (st : SweepState) (sid : String)
    (hnd : MapNodup st.reg) :
    (∀ m, mapGet sid st.reg = some m → m = [] → sid ∈ (sweep st).pending) ∧
    (sid ∈ st.pending → mapGet sid (fireTimeout st sid).reg = none) := by
  constructor
  · intro m hm hme
    subst hme
    have hmem : (sid, ([] : TaskMap)) ∈ st.reg := mapGet_mem _ _ _ hm
    simp only [sweep]
    apply List.mem_append_right
    exact List.mem_map.mpr ⟨(sid, []), List.mem_filter.mpr ⟨hmem, by simp⟩, rfl⟩
  · intro hp
    simp only [fireTimeout, if_pos hp]
    exact mapGet_mapDel_self _ _ hnd

/-- Witness for the amended C3: expiry deletes a scheduled session that
holds one task. -/
theorem C3_witness :
    (MapNodup ([("s", [("T", stopFixture)])] : Registry) ∧
      "s" ∈ (SweepState.mk [("s", [("T", stopFixture)])] ["s"]).pending) ∧
    mapGet "s" (fireTimeout (SweepState.mk [("s", [("T", stopFixture)])] ["s"]) "s").reg = none :=
  ⟨⟨by decide, by decide⟩,
    (C3_schedule_then_delete (SweepState.mk [("s", [("T", stopFixture)])] ["s"]) "s"
      (by decide)).2 (by decide)⟩

/-- Counterexample to claim C6: with a configured delay of 5 seconds, the
fixed 5000 ms failure backoff is not longer than the per-message delay of
5000 ms, while the other parts of the claim (error event, loop continues,
cursor and count unchanged) hold. -/
theorem C6_counterexample :
    (delay5Task.sendIteration (.fail "submit hiccup")).continueLoop = true ∧
    (delay5Task.sendIteration (.fail "submit hiccup")).task = delay5Task ∧
    (delay5Task.sendIteration (.fail "submit hiccup")).waitMs = 5000 ∧
    ¬ (delay5Task.config.delay * 1000 <
        (delay5Task.sendIteration (.fail "submit hiccup")).waitMs) := by
  decide

/-- Claim C6 as amended: on a transient (non-fatal) failure the task emits
an Error status event, stays in the loop, leaves cursor and sent count
unchanged, and waits a fixed 5000 ms backoff - which exceeds the
configured per-message delay only when that delay is below 5 seconds. -/
theorem C6_transient_retry (t : MessageSender) (msg : String)
    (hfatal : strIncludes msg fatalSignature = false) :
    (t.sendIteration (.fail msg)).task = t ∧
    (t.sendIteration (.fail msg)).continueLoop = true ∧
    (t.sendIteration (.fail msg)).waitMs = 5000 ∧
    (t.sendIteration (.fail msg)).events =
      [t.statusEvent "error" ("Error sending message: " ++ msg)] ∧
    (t.config.delay < 5 →
      t.config.delay * 1000 < (t.sendIteration (.fail msg)).waitMs) := by
  have hs : t.sendIteration (.fail msg) =
      { task := t,
        events := [t.statusEvent "error" ("Error sending message: " ++ msg)],
        waitMs := 5000, continueLoop := true, usedIndex := t.currentIndex,
        originalMessage := t.messages.getD t.currentIndex "" } := by
    simp [MessageSender.sendIteration, hfatal]
  rw [hs]
  exact ⟨rfl, rfl, rfl, rfl, fun h => show t.config.delay * 1000 < 5000 by omega⟩

/-- Witness for the amended C6 at delay 1 s and a non-fatal error. -/
theorem C6_witness :
    (strIncludes "submit hiccup" fatalSignature = false) ∧
    ((hiThereTask.sendIteration (.fail "submit hiccup")).task = hiThereTask ∧
      (hiThereTask.sendIteration (.fail "submit hiccup")).continueLoop = true ∧
      (hiThereTask.sendIteration (.fail "submit hiccup")).waitMs = 5000 ∧
      (hiThereTask.sendIteration (.fail "submit hiccup")).events =
        [hiThereTask.statusEvent "error" ("Error sending message: " ++ "submit hiccup")] ∧
      (hiThereTask.config.delay < 5 →
        hiThereTask.config.delay * 1000 <
          (hiThereTask.sendIteration (.fail "submit hiccup")).waitMs)) :=
  ⟨by decide, C6_transient_retry hiThereTask "submit hiccup" (by decide)⟩

/-- Claim C7: fatal-failure classification. A failure whose message
contains the signature "textbox not found" emits the terminal Error
status, exits the send loop without consuming further outcomes (the
message is not retried), and runs cleanup; a failure not matching the
signature leaves the loop running and does not trigger cleanup. -/
theorem C7_fatal_classification (t : MessageSender) (msg : String)
    (rest : List SendOutcome) (reg : Registry) (hrun : t.isRunning = true) :
    (strIncludes msg fatalSignature = true →
      t.sendMessages reg (.fail msg :: rest) =
        (t, [t.statusEvent "error" ("Error sending message: " ++ msg),
             t.statusEvent "error" "Cannot find message input. Stopping task."],
          cleanupReg reg t.sessionId t.taskId)) ∧
    (strIncludes msg fatalSignature = false →
      t.sendMessages reg [.fail msg] =
        (t, [t.statusEvent "error" ("Error sending message: " ++ msg)], reg)) := by
  constructor
  · intro hf
    simp [MessageSender.sendMessages, MessageSender.sendIteration, hrun, hf]
  · intro hf
    simp [MessageSender.sendMessages, MessageSender.sendIteration, hrun, hf]

/-- Witness for C7 at a fatal and a non-fatal error message. -/
theorem C7_witness :
    (hiThereTask.isRunning = true ∧
      strIncludes "Message textbox not found" fatalSignature = true ∧
      strIncludes "net timeout" fatalSignature = false) ∧
    (hiThereTask.sendMessages stopReg [.fail "Message textbox not found"] =
      (hiThereTask,
        [hiThereTask.statusEvent "error"
            ("Error sending message: " ++ "Message textbox not found"),
         hiThereTask.statusEvent "error" "Cannot find message input. Stopping task."],
        cleanupReg stopReg hiThereTask.sessionId hiThereTask.taskId)) ∧
    (hiThereTask.sendMessages stopReg [.fail "net timeout"] =
      (hiThereTask,
        [hiThereTask.statusEvent "error" ("Error sending message: " ++ "net timeout")],
        stopReg)) :=
  ⟨⟨by decide, by decide, by decide⟩,
    (C7_fatal_classification hiThereTask "Message textbox not found" []
        stopReg (by decide)).1 (by decide),
    (C7_fatal_classification hiThereTask "net timeout" [] stopReg (by decide)).2
      (by decide)⟩

/-- Counterexample to claim C8: invoking stop twice on the same task emits
the terminal stopped status twice, not once. -/
theorem C8_counterexample :
    (((stopFixture.stop stopReg).2.1 ++
        ((stopFixture.stop stopReg).1.stop (stopFixture.stop stopReg).2.2).2.1).filter
      (fun e => e.status = "stopped")).length = 2 := by
  decide

/-- Claim C8 as amended: cleanup is idempotent on the registry - applied
twice it yields the same registry state as once, and a second stop does
not change the registry further - but stop is not idempotent in events:
each invocation emits exactly one terminal stopped event, so two stops
emit two. -/
theorem C8_idempotent_cleanup_not_events (t : MessageSender) (reg : Registry)
    (hnd : MapNodup ((mapGet t.sessionId reg).getD [])) :
    cleanupReg (cleanupReg reg t.sessionId t.taskId) t.sessionId t.taskId =
      cleanupReg reg t.sessionId t.taskId ∧
    (t.stop reg).2.2 = cleanupReg reg t.sessionId t.taskId ∧
    ((t.stop reg).1.stop (t.stop reg).2.2).2.2 = (t.stop reg).2.2 ∧
    ((t.stop reg).2.1.filter (fun e => e.status = "stopped")).length = 1 ∧
    (((t.stop reg).2.1 ++ ((t.stop reg).1.stop (t.stop reg).2.2).2.1).filter
        (fun e => e.status = "stopped")).length = 2 := by
  have h1 : cleanupReg (cleanupReg reg t.sessionId t.taskId) t.sessionId t.taskId =
      cleanupReg reg t.sessionId t.taskId := by
    cases hm : mapGet t.sessionId reg with
    | none => simp [cleanupReg, hm]
    | some m =>
      rw [hm] at hnd
      simp only [Option.getD_some] at hnd
      simp only [cleanupReg, hm, mapGet_mapSet_self]
      rw [mapDel_mapDel_self _ _ hnd, mapSet_mapSet_self]
  have h2 : (t.stop reg).2.2 = cleanupReg reg t.sessionId t.taskId := by
    simp [MessageSender.stop]
  refine ⟨h1, h2, ?_, ?_, ?_⟩
  · simp only [MessageSender.stop]
    simpa using h1
  · simp [MessageSender.stop, MessageSender.statusEvent, List.filter]
  · simp [MessageSender.stop, MessageSender.statusEvent, List.filter]

/-- Witness for the amended C8 at a one-task registry. -/
theorem C8_witness :
    MapNodup ((mapGet stopFixture.sessionId stopReg).getD []) ∧
    ((stopFixture.stop stopReg).2.2 = cleanupReg stopReg stopFixture.sessionId stopFixture.taskId ∧
      ((stopFixture.stop stopReg).1.stop (stopFixture.stop stopReg).2.2).2.2 =
        (stopFixture.stop stopReg).2.2 ∧
      ((stopFixture.stop stopReg).2.1.filter (fun e => e.status = "stopped")).length = 1) :=
  ⟨by decide,
    let h := C8_idempotent_cleanup_not_events stopFixture stopReg (by decide)
    ⟨h.2.1, h.2.2.1, h.2.2.2.1⟩⟩

/-- Counterexample to claim C9: the task key is the target identifier
itself (`taskId = threadId`), so a second request for the same target - 
with any other fields different - is rejected as duplicate, and every
registry entry satisfies key = target; two tasks with the same target but
different keys cannot be created. -/
theorem C9_counterexample :
    (startTask [] "s" reqT).1 = .ok "T" ∧
    (startTask (startTask [] "s" reqT).2 "s" reqTother).1 = .duplicate ∧
    (∀ kv ∈ (mapGet "s" (startTask [] "s" reqT).2).getD [],
      kv.1 = kv.2.config.threadId) := by
  decide

/-- Claim C9 as amended: uniqueness at creation is enforced on the task
key, and the key is the target identifier itself, so two concurrent tasks
of one session always have distinct targets; two tasks with different
targets (hence different keys) can be created and coexist. -/
theorem C9_key_is_target (reg : Registry) (s : String)
    (req1 req2 : StartRequest)
    (h1 : ¬(req1.cookie = "" ∨ req1.threadId = "" ∨ req1.hasFile = false))
    (h2 : ¬(req2.cookie = "" ∨ req2.threadId = "" ∨ req2.hasFile = false))
    (hneq : req2.threadId ≠ req1.threadId)
    (habs1 : mapGet req1.threadId ((mapGet s reg).getD []) = none)
    (habs2 : mapGet req2.threadId ((mapGet s reg).getD []) = none) :
    (∀ (r : Registry) (req : StartRequest) (tid : String) (reg' : Registry),
      startTask r s req = (.ok tid, reg') → tid = req.threadId) ∧
    (startTask reg s req1).1 = .ok req1.threadId ∧
    (startTask (startTask reg s req1).2 s req2).1 = .ok req2.threadId ∧
    mapGet req1.threadId
      ((mapGet s (startTask (startTask reg s req1).2 s req2).2).getD []) ≠ none ∧
    mapGet req2.threadId
      ((mapGet s (startTask (startTask reg s req1).2 s req2).2).getD []) ≠ none := by
  have hfirst := startTask_absent reg s req1 h1 habs1
  set m0 := (mapGet s reg).getD [] with hm0
  set t1 := MessageSender.mk0 req1.threadId
      { cookie := req1.cookie, threadId := req1.threadId,
        hattersName := req1.hattersName, delay := req1.delay } s with ht1
  set R1 := mapSet s (mapSet req1.threadId t1 m0) (initSessionTasks s reg) with hR1
  have hgetR1 : mapGet s R1 = some (mapSet req1.threadId t1 m0) := mapGet_mapSet_self _ _ _
  have habs2' : mapGet req2.threadId ((mapGet s R1).getD []) = none := by
    rw [hgetR1]
    simp only [Option.getD_some]
    rw [mapGet_mapSet_ne _ _ _ _ hneq]
    exact habs2
  have hsecond := startTask_absent R1 s req2 h2 habs2'
  set t2 := MessageSender.mk0 req2.threadId
      { cookie := req2.cookie, threadId := req2.threadId,
        hattersName := req2.hattersName, delay := req2.delay } s with ht2
  have hinitR1 : initSessionTasks s R1 = R1 := by simp [initSessionTasks, hgetR1]
  refine ⟨fun r req tid reg' h => startTask_ok_tid r s req tid reg' h, ?_, ?_, ?_, ?_⟩
  · rw [hfirst]
  · rw [hfirst]
    simp only
    rw [hsecond]
  · rw [hfirst]
    simp only
    rw [hsecond]
    simp only [hinitR1, hgetR1, Option.getD_some, mapGet_mapSet_self, Option.getD_some]
    rw [mapGet_mapSet_ne _ _ _ _ (Ne.symm hneq), mapGet_mapSet_self]
    simp
  · rw [hfirst]
    simp only
    rw [hsecond]
    simp only [hinitR1, hgetR1, Option.getD_some, mapGet_mapSet_self]
    simp

/-- Witness for the amended C9 at targets "T" and "U". -/
theorem C9_witness :
    ((startTask [] "s" reqT).1 = .ok reqT.threadId ∧
      (startTask (startTask [] "s" reqT).2 "s" reqU).1 = .ok reqU.threadId ∧
      mapGet reqT.threadId
        ((mapGet "s" (startTask (startTask [] "s" reqT).2 "s" reqU).2).getD []) ≠ none ∧
      mapGet reqU.threadId
        ((mapGet "s" (startTask (startTask [] "s" reqT).2 "s" reqU).2).getD []) ≠ none) :=
  let h := C9_key_is_target [] "s" reqT reqU (by decide) (by decide) (by decide)
    (by decide) (by decide)
  ⟨h.2.1, h.2.2.1, h.2.2.2.1, h.2.2.2.2⟩

end Server
